import Mathlib

/-!
# UVCCamera.h: pose algebra, status check and frame buffer slot

A shallow embedding of the pure parts of `src/src/UVCCamera.h` (namespace `rs`).

* `float` is read as exact arithmetic: every definition is written over an arbitrary
  commutative ring `α` (so the theorems hold in particular for the real numbers, and the
  definitions evaluate on `ℤ` or `ℚ`).
* C++ operators have no name, so each overload gets a descriptive one:
  `float3_add` (`float3 + float3`), `float3_mul_float` (`float3 * float`),
  `float3x3_mul_float3`, `float3x3_mul_float3x3`, `pose_mul_float3`, `pose_mul_pose`.
  `transpose` and `inverse` keep their names.
-/

set_option linter.unusedSectionVars false

namespace rs

/-! ## Data model (UVCCamera.h lines 55-57) -/

/-- The struct `float3 { float x,y,z; }`. -/
@[ext]
structure float3 (α : Type) where
  x : α
  y : α
  z : α
  deriving DecidableEq

/-- The struct `float3x3 { float3 x,y,z; }`: the three stored vectors are the columns. -/
@[ext]
structure float3x3 (α : Type) where
  x : float3 α
  y : float3 α
  z : float3 α
  deriving DecidableEq

/-- The struct `pose { float3x3 orientation; float3 position; }`. -/
@[ext]
structure pose (α : Type) where
  orientation : float3x3 α
  position : float3 α
  deriving DecidableEq

/-- The accessor `float3::operator [] (int i)`, `(&x)[i]`, on its defined range `0..2`. -/
def float3.index {α : Type} (v : float3 α) (i : Fin 3) : α :=
  match i with
  | 0 => v.x
  | 1 => v.y
  | 2 => v.z

/-- The column selection `(&x)[j]` of a `float3x3`, on its defined range `0..2`. -/
def float3x3.column {α : Type} (m : float3x3 α) (j : Fin 3) : float3 α :=
  match j with
  | 0 => m.x
  | 1 => m.y
  | 2 => m.z

/-- The accessor `float3x3::operator () (int i, int j)`, `(&x)[j][i]` (column-major). -/
def float3x3.call {α : Type} (m : float3x3 α) (i j : Fin 3) : α :=
  (m.column j).index i

/-! ## Operations (UVCCamera.h lines 58-65) -/

section Operations

variable {α : Type} [CommRing α]

/-- The overload `operator + (float3 a, float3 b)`: `{a.x+b.x, a.y+b.y, a.z+b.z}`. -/
def float3_add (a b : float3 α) : float3 α :=
  ⟨a.x + b.x, a.y + b.y, a.z + b.z⟩

/-- The overload `operator * (float3 a, float b)`: `{a.x*b, a.y*b, a.z*b}`. -/
def float3_mul_float (a : float3 α) (b : α) : float3 α :=
  ⟨a.x * b, a.y * b, a.z * b⟩

/-- The overload `operator * (float3x3 a, float3 b)`: `a.x*b.x + a.y*b.y + a.z*b.z`. -/
def float3x3_mul_float3 (a : float3x3 α) (b : float3 α) : float3 α :=
  float3_add (float3_add (float3_mul_float a.x b.x) (float3_mul_float a.y b.y))
    (float3_mul_float a.z b.z)

/-- The overload `operator * (float3x3 a, float3x3 b)`: `{a*b.x, a*b.y, a*b.z}`. -/
def float3x3_mul_float3x3 (a b : float3x3 α) : float3x3 α :=
  ⟨float3x3_mul_float3 a b.x, float3x3_mul_float3 a b.y, float3x3_mul_float3 a b.z⟩

/-- The function `transpose(float3x3 a)`. -/
def transpose (a : float3x3 α) : float3x3 α :=
  ⟨⟨a.x.x, a.y.x, a.z.x⟩, ⟨a.x.y, a.y.y, a.z.y⟩, ⟨a.x.z, a.y.z, a.z.z⟩⟩

/-- The overload `operator * (pose a, float3 b)`: `a.orientation * b + a.position`. -/
def pose_mul_float3 (a : pose α) (b : float3 α) : float3 α :=
  float3_add (float3x3_mul_float3 a.orientation b) a.position

/-- The overload `operator * (pose a, pose b)`:
`{a.orientation * b.orientation, a.position + a * b.position}`.
The second summand `a * b.position` has a `pose` on the left and a `float3` on the right, so
overload resolution selects `operator * (pose, float3)`. -/
def pose_mul_pose (a b : pose α) : pose α :=
  ⟨float3x3_mul_float3x3 a.orientation b.orientation,
   float3_add a.position (pose_mul_float3 a b.position)⟩

/-- The function `inverse(pose a)`:
`auto inv = transpose(a.orientation); return {inv, inv * a.position * -1};`. -/
def inverse (a : pose α) : pose α :=
  let inv := transpose a.orientation
  ⟨inv, float3_mul_float (float3x3_mul_float3 inv a.position) (-1)⟩

/-! ## Specification vocabulary -/

/-- The zero vector. -/
def float3_zero : float3 α := ⟨0, 0, 0⟩

/-- Componentwise negation of a vector. -/
def float3_neg (a : float3 α) : float3 α := ⟨-a.x, -a.y, -a.z⟩

/-- The identity matrix (columns are the unit vectors). -/
def float3x3_identity : float3x3 α := ⟨⟨1, 0, 0⟩, ⟨0, 1, 0⟩, ⟨0, 0, 1⟩⟩

/-- The identity pose: identity orientation, zero position. -/
def pose_identity : pose α := ⟨float3x3_identity, float3_zero⟩

/-- The Pose invariant: `transpose(R) * R = identity`. -/
def orthonormal (r : float3x3 α) : Prop :=
  float3x3_mul_float3x3 (transpose r) r = float3x3_identity

/-- The matrix whose `(i, j)` entry is `m(i, j)`. -/
def toMatrix (m : float3x3 α) : Matrix (Fin 3) (Fin 3) α :=
  Matrix.of fun i j => m.call i j

instance [DecidableEq α] (r : float3x3 α) : Decidable (orthonormal r) := by
  unfold orthonormal; infer_instance

end Operations

/-! ## Concrete poses used to evaluate the code -/

/-- The pose with identity orientation and position `(1, 0, 0)`. -/
def unit_x_pose : pose ℤ := ⟨float3x3_identity, ⟨1, 0, 0⟩⟩

/-- The pose that rotates by a quarter turn about the z axis and has position `(1, 2, 3)`. -/
def quarter_turn_pose : pose ℤ := ⟨⟨⟨0, 1, 0⟩, ⟨-1, 0, 0⟩, ⟨0, 0, 1⟩⟩, ⟨1, 2, 3⟩⟩

/-! ## CheckUVC (UVCCamera.h lines 14-20) -/

/-- The function `CheckUVC(const char * call, uvc_error_t status)`.
`uvc_error_t` is the integer status enumeration of libuvc and `uvc_strerror` its status text,
both external to the repository, so the status is an `Int` and `uvc_strerror` is a parameter.
`throw std::runtime_error(m)` is `Except.error m`; returning normally is `Except.ok ()`.
The stream insertions `ToString() << call << "(...) returned " << uvc_strerror(status)`
(`ToString` is declared in rs-internal.h) are string concatenation. -/
def CheckUVC (uvc_strerror : Int → String) (call : String) (status : Int) : Except String Unit :=
  if status < 0 then
    Except.error (call ++ "(...) returned " ++ uvc_strerror status)
  else
    Except.ok ()

/-! ## Frame Buffer Slot (UVCCamera.h lines 39-52 and 78-93) -/

/-- The struct `ResolutionMode`. `uvc_frame_format` is an enumeration of libuvc (an `Int` here)
and `rs_intrinsics` is declared outside UVCCamera.h (a type parameter here). -/
structure ResolutionMode (rs_intrinsics : Type) where
  stream : Int
  width : Int
  height : Int
  fps : Int
  format : Int
  uvcWidth : Int
  uvcHeight : Int
  uvcFps : Int
  uvcFormat : Int
  intrinsics : rs_intrinsics

/-- A `std::vector<uint8_t>`: the address of its element storage (what `data()` returns) and
the bytes stored there. -/
structure vector_uint8 where
  data : Nat
  bytes : List Nat
  deriving DecidableEq

/-- The data members of `UVCCamera::UserStreamInterface`. The `std::mutex` member carries no
data in a sequential model and is left out. -/
structure UserStreamInterface (rs_intrinsics : Type) where
  mode : ResolutionMode rs_intrinsics
  updated : Bool
  front : vector_uint8
  middle : vector_uint8
  back : vector_uint8

/-- The member `get_image() const { return front.data(); }`. -/
def UserStreamInterface.get_image {rs_intrinsics : Type}
    (s : UserStreamInterface rs_intrinsics) : Nat :=
  s.front.data

/-- Modelled from the spec: the body of `UVCCamera::UserStreamInterface::update_image`, which
UVCCamera.h only declares (line 92). Spec 4.3, consumer side: under the lock, if the changed
flag is set, swap the just-filled back buffer into front (exchange of the two vectors, no
pixel copy), clear the flag and return true; if it is not set, return false and leave front
untouched. The result is the returned flag together with the state after the call. -/
def UserStreamInterface.update_image {rs_intrinsics : Type}
    (s : UserStreamInterface rs_intrinsics) : Bool × UserStreamInterface rs_intrinsics :=
  if s.updated then
    (true, { s with front := s.back, back := s.front, updated := false })
  else
    (false, s)

/-- A slot with three distinct one-byte buffers and the updated flag not set. -/
def idle_slot : UserStreamInterface Unit :=
  { mode := ⟨0, 1, 1, 30, 0, 1, 1, 30, 0, ()⟩
    updated := false
    front := ⟨4096, [7]⟩
    middle := ⟨8192, [8]⟩
    back := ⟨12288, [9]⟩ }

/-! ## Theorems -/

section Theorems

variable {α : Type} [CommRing α]

/-- Claim C4: for every pose `a`, `inverse(a)` has orientation `transpose(a.orientation)` and
position `-(transpose(a.orientation) * a.position)`; no orthonormality is required. -/
theorem inverse_formula (a : pose α) :
    (inverse a).orientation = transpose a.orientation ∧
    (inverse a).position = float3_neg (float3x3_mul_float3 (transpose a.orientation) a.position) := by
  refine ⟨rfl, ?_⟩
  simp [inverse, float3_mul_float, float3_neg]

/-- Claim C5: with `M(i,j)` the `i`-th component of the `j`-th stored column, the matrix-vector
and matrix-matrix products are the standard ones:
`(A * v)[i] = Σ k, A(i,k) * v[k]` and `(A * B)(i,j) = Σ k, A(i,k) * B(k,j)`. -/
theorem mul_is_standard_product (A B : float3x3 α) (v : float3 α) (i j : Fin 3) :
    (float3x3_mul_float3 A v).index i = ∑ k : Fin 3, A.call i k * v.index k ∧
    (float3x3_mul_float3x3 A B).call i j = ∑ k : Fin 3, A.call i k * B.call k j := by
  constructor
  · fin_cases i <;>
      simp [Fin.sum_univ_three, float3x3_mul_float3, float3_add, float3_mul_float,
        float3.index, float3x3.call, float3x3.column]
  · fin_cases i <;> fin_cases j <;>
      simp [Fin.sum_univ_three, float3x3_mul_float3x3, float3x3_mul_float3, float3_add,
        float3_mul_float, float3.index, float3x3.call, float3x3.column]

/-! ### Bridge to `Matrix (Fin 3) (Fin 3) α` -/

theorem toMatrix_injective (a b : float3x3 α) (h : toMatrix a = toMatrix b) : a = b := by
  have e : ∀ i j, a.call i j = b.call i j := fun i j => congrFun (congrFun h i) j
  have e00 := e 0 0; have e01 := e 0 1; have e02 := e 0 2
  have e10 := e 1 0; have e11 := e 1 1; have e12 := e 1 2
  have e20 := e 2 0; have e21 := e 2 1; have e22 := e 2 2
  simp only [float3x3.call, float3x3.column, float3.index] at e00 e01 e02 e10 e11 e12 e20 e21 e22
  ext <;> assumption

theorem toMatrix_mul (a b : float3x3 α) :
    toMatrix (float3x3_mul_float3x3 a b) = toMatrix a * toMatrix b := by
  ext i j
  fin_cases i <;> fin_cases j <;>
    simp [toMatrix, Matrix.mul_apply, Fin.sum_univ_three, float3x3_mul_float3x3,
      float3x3_mul_float3, float3_add, float3_mul_float, float3.index, float3x3.call,
      float3x3.column]

theorem toMatrix_transpose (a : float3x3 α) :
    toMatrix (transpose a) = (toMatrix a).transpose := by
  ext i j
  fin_cases i <;> fin_cases j <;>
    simp [toMatrix, transpose, float3.index, float3x3.call, float3x3.column]

theorem toMatrix_identity : toMatrix (float3x3_identity : float3x3 α) = 1 := by
  ext i j
  fin_cases i <;> fin_cases j <;>
    simp [toMatrix, float3x3_identity, float3.index, float3x3.call, float3x3.column]

theorem orthonormal_iff (r : float3x3 α) :
    orthonormal r ↔ (toMatrix r).transpose * toMatrix r = 1 := by
  unfold orthonormal
  constructor
  · intro h
    rw [← toMatrix_transpose, ← toMatrix_mul, h, toMatrix_identity]
  · intro h
    apply toMatrix_injective
    rw [toMatrix_mul, toMatrix_transpose, h, toMatrix_identity]

/-! ### Vector lemmas -/

theorem identity_mul_float3 (v : float3 α) :
    float3x3_mul_float3 float3x3_identity v = v := by
  ext <;> simp [float3x3_mul_float3, float3x3_identity, float3_add, float3_mul_float]

theorem mul_mul_float3 (a b : float3x3 α) (v : float3 α) :
    float3x3_mul_float3 a (float3x3_mul_float3 b v) =
      float3x3_mul_float3 (float3x3_mul_float3x3 a b) v := by
  ext <;> simp [float3x3_mul_float3x3, float3x3_mul_float3, float3_add, float3_mul_float] <;> ring

theorem inverse_mul_float3 (p : pose α) (w : float3 α) :
    pose_mul_float3 (inverse p) (float3_add (float3x3_mul_float3 p.orientation w) p.position) =
      float3x3_mul_float3 (float3x3_mul_float3x3 (transpose p.orientation) p.orientation) w := by
  ext <;>
    simp [pose_mul_float3, inverse, float3x3_mul_float3x3, float3x3_mul_float3, float3_add,
      float3_mul_float, transpose] <;> ring

/-! ### Claims -/

/-- Claim C8: orthonormality of the orientation is preserved by `inverse` and by pose
composition: if `a` and `b` have orthonormal orientations then so do `inverse(a)` and `a * b`. -/
theorem orthonormal_preserved (a b : pose α)
    (ha : orthonormal a.orientation) (hb : orthonormal b.orientation) :
    orthonormal (inverse a).orientation ∧ orthonormal (pose_mul_pose a b).orientation := by
  rw [orthonormal_iff] at ha hb
  constructor
  · rw [orthonormal_iff]
    show (toMatrix (transpose a.orientation)).transpose * toMatrix (transpose a.orientation) = 1
    rw [toMatrix_transpose, Matrix.transpose_transpose]
    exact Matrix.mul_eq_one_comm.mp ha
  · rw [orthonormal_iff]
    show (toMatrix (float3x3_mul_float3x3 a.orientation b.orientation)).transpose *
        toMatrix (float3x3_mul_float3x3 a.orientation b.orientation) = 1
    rw [toMatrix_mul, Matrix.transpose_mul, Matrix.mul_assoc,
      ← Matrix.mul_assoc (toMatrix a.orientation).transpose, ha, Matrix.one_mul, hb]

/-- Claim C10: for every pose `p` with orthonormal orientation and every vector `v`,
`inverse(p) * (p * v) = v`, where `pose * vector` is `orientation * v + position`. -/
theorem inverse_undoes_action (p : pose α) (v : float3 α) (hp : orthonormal p.orientation) :
    pose_mul_float3 (inverse p) (pose_mul_float3 p v) = v := by
  unfold orthonormal at hp
  show pose_mul_float3 (inverse p)
      (float3_add (float3x3_mul_float3 p.orientation v) p.position) = v
  rw [inverse_mul_float3, hp, identity_mul_float3]

/-- Witness for `orthonormal_preserved` at the quarter turn pose and the unit x pose. -/
theorem orthonormal_preserved_witness :
    orthonormal quarter_turn_pose.orientation ∧ orthonormal unit_x_pose.orientation ∧
    orthonormal (inverse quarter_turn_pose).orientation ∧
    orthonormal (pose_mul_pose quarter_turn_pose unit_x_pose).orientation :=
  ⟨by decide, by decide,
    orthonormal_preserved quarter_turn_pose unit_x_pose (by decide) (by decide)⟩

/-- Witness for `inverse_undoes_action` at the quarter turn pose and the vector `(4, 5, 6)`. -/
theorem inverse_undoes_action_witness :
    orthonormal quarter_turn_pose.orientation ∧
    pose_mul_float3 (inverse quarter_turn_pose)
      (pose_mul_float3 quarter_turn_pose ⟨4, 5, 6⟩) = ⟨4, 5, 6⟩ :=
  ⟨by decide, inverse_undoes_action quarter_turn_pose ⟨4, 5, 6⟩ (by decide)⟩

/-! ### What `operator * (pose, pose)` computes

The position of `a * b` is `a.position + a * b.position`, and `a * b.position` is the pose
action `a.orientation * b.position + a.position`: the position of `a` enters twice. -/

theorem pose_mul_pose_position (a b : pose α) :
    (pose_mul_pose a b).position =
      float3_add a.position
        (float3_add (float3x3_mul_float3 a.orientation b.position) a.position) := rfl

theorem inverse_mul_self (p : pose α) (hp : orthonormal p.orientation) :
    pose_mul_pose (inverse p) p =
      ⟨float3x3_identity, float3_neg (float3x3_mul_float3 (transpose p.orientation) p.position)⟩ := by
  unfold orthonormal at hp
  ext1
  · exact hp
  · ext <;>
      simp [pose_mul_pose, pose_mul_float3, inverse, float3x3_mul_float3, float3_add,
        float3_mul_float, float3_neg, transpose] <;> ring

/-- Claim C3, evaluated: for `a` the unit x pose and `b` the identity pose, `a * b` has the
orientation `a.orientation * b.orientation`, but its position is `(2, 0, 0)` whereas
`a.position + a.orientation * b.position` is `(1, 0, 0)`. -/
theorem pose_mul_pose_position_twice :
    (pose_mul_pose unit_x_pose pose_identity).orientation =
      float3x3_mul_float3x3 unit_x_pose.orientation (pose_identity : pose ℤ).orientation ∧
    (pose_mul_pose unit_x_pose pose_identity).position = ⟨2, 0, 0⟩ ∧
    float3_add unit_x_pose.position
      (float3x3_mul_float3 unit_x_pose.orientation (pose_identity : pose ℤ).position) =
        ⟨1, 0, 0⟩ := by
  decide

/-- Claim C1, evaluated: the unit x pose `p` has an orthonormal orientation, and
`inverse(p) * p` has identity orientation but position `(-1, 0, 0)`, so it is not the
identity pose. -/
theorem inverse_mul_self_not_identity :
    orthonormal unit_x_pose.orientation ∧
    (pose_mul_pose (inverse unit_x_pose) unit_x_pose).orientation = float3x3_identity ∧
    (pose_mul_pose (inverse unit_x_pose) unit_x_pose).position = ⟨-1, 0, 0⟩ ∧
    pose_mul_pose (inverse unit_x_pose) unit_x_pose ≠ pose_identity := by
  decide

/-- Claim C2, evaluated: for `a` the unit x pose and `b = c` the identity pose (all
orthonormal), `(a * b) * c` has position `(4, 0, 0)` and `a * (b * c)` has position
`(2, 0, 0)`; the orientations agree. -/
theorem pose_mul_pose_not_associative :
    orthonormal unit_x_pose.orientation ∧
    orthonormal (pose_identity : pose ℤ).orientation ∧
    (pose_mul_pose (pose_mul_pose unit_x_pose pose_identity) pose_identity).orientation =
      (pose_mul_pose unit_x_pose (pose_mul_pose pose_identity pose_identity)).orientation ∧
    (pose_mul_pose (pose_mul_pose unit_x_pose pose_identity) pose_identity).position =
      ⟨4, 0, 0⟩ ∧
    (pose_mul_pose unit_x_pose (pose_mul_pose pose_identity pose_identity)).position =
      ⟨2, 0, 0⟩ := by
  decide

/-- Claim C9, evaluated: for `a` the unit x pose, `b` the identity pose and `v` the zero
vector, `(a * b) * v` is `(2, 0, 0)` and `a * (b * v)` is `(1, 0, 0)`. -/
theorem action_of_composition_differs :
    pose_mul_float3 (pose_mul_pose unit_x_pose pose_identity) float3_zero = ⟨2, 0, 0⟩ ∧
    pose_mul_float3 unit_x_pose (pose_mul_float3 pose_identity float3_zero) = ⟨1, 0, 0⟩ := by
  decide

/-! ### CheckUVC -/

/-- Claim C6: `CheckUVC(call, status)` raises an error if and only if `status < 0`; the
message is then `call` followed by `"(...) returned "` followed by the status text of
`status`; for every `status >= 0` it returns normally. -/
theorem CheckUVC_spec (uvc_strerror : Int → String) (call : String) (status : Int) :
    ((∃ msg, CheckUVC uvc_strerror call status = Except.error msg) ↔ status < 0) ∧
    (status < 0 →
      CheckUVC uvc_strerror call status =
        Except.error (call ++ "(...) returned " ++ uvc_strerror status)) ∧
    (0 ≤ status → CheckUVC uvc_strerror call status = Except.ok ()) := by
  unfold CheckUVC
  by_cases h : status < 0
  · simp [h]
  · simp [h]

/-- Witness for `CheckUVC_spec` at a negative and at a non-negative status. -/
theorem CheckUVC_spec_witness :
    CheckUVC (fun _ => "No such device") "uvc_open2" (-4) =
      Except.error "uvc_open2(...) returned No such device" ∧
    CheckUVC (fun _ => "Success") "uvc_open2" 0 = Except.ok () :=
  ⟨(CheckUVC_spec (fun _ => "No such device") "uvc_open2" (-4)).2.1 (by decide),
   (CheckUVC_spec (fun _ => "Success") "uvc_open2" 0).2.2 (by decide)⟩

/-! ### Frame Buffer Slot -/

/-- Claim C7: in every slot state whose updated flag is not set, `update_image()` returns
false and leaves the front buffer, and with it the value of `get_image()`, unchanged. -/
theorem update_image_idle {rs_intrinsics : Type} (s : UserStreamInterface rs_intrinsics)
    (h : s.updated = false) :
    s.update_image.1 = false ∧ s.update_image.2.front = s.front ∧
    s.update_image.2.get_image = s.get_image := by
  simp [UserStreamInterface.update_image, h]

/-- Witness for `update_image_idle` at `idle_slot`. -/
theorem update_image_idle_witness :
    idle_slot.updated = false ∧ idle_slot.update_image.1 = false ∧
    idle_slot.update_image.2.front = idle_slot.front ∧
    idle_slot.update_image.2.get_image = idle_slot.get_image :=
  ⟨rfl, update_image_idle idle_slot rfl⟩

end Theorems

end rs
